import Mathlib

/-!
Shallow embedding of the streaming acquisition-and-upload pipeline implemented
in `lambda/youtube_download/handler.rb` (class `YouTubeDownloader`).

The external world seen by one run — the catalog (DynamoDB scan pages), the
extractor subprocess (yt-dlp exit statuses and the byte counts returned by
each `stdout.read`), and the object store (the etag returned per uploaded
part, and whether `abort_multipart_upload` succeeds) — is passed in as
explicit environment records.  Each embedded operation returns, next to the
Ruby return value, the ordered list of observable calls (`Event`s) it makes
against the subprocess and the object store, so that statements such as
"`complete` is called with exactly this part list" or "zero storage calls
happen" can be expressed as facts about the trace.
-/

namespace Transcribe

/-- One entry of the multipart `parts` array appended by the read/upload
loop: `{etag:, part_number:}` (handler.rb lines 391-394). -/
structure Part where
  etag : String
  part_number : Nat
deriving DecidableEq

/-- Observable calls one run makes against the extractor subprocess and the
object store.  `spawn_probe` is the `Open3.capture3` of the filename-probe
command (line 312), `spawn_stream` the `Open3.popen3` of the streaming
command (line 339), `spawn_download` the `Open3.capture3` of the local-mode
command (line 234), and `put_object` the whole-file upload of local mode
(line 538); the four multipart events are the S3 client calls of lines 352,
376, 434, and 417/457/475. -/
inductive Event where
  | spawn_probe
  | spawn_stream
  | spawn_download
  | create_multipart (key : String) (content_type : String)
  | upload_part (part_number : Nat) (size : Nat)
  | complete_multipart (parts : List Part)
  | abort_multipart
  | put_object (key : String)
deriving DecidableEq

/-- The per-item result hash built by `download_video` /
`download_video_to_s3` (`{video_id:, success:, message:, ...}`).  The
derived field `s3_url` (`"s3://bucket/key"`, line 451) is omitted; the
optional fields are `nil` in Ruby when absent. -/
structure BatchResult where
  video_id : String
  success : Bool
  message : String
  s3_key : Option String := none
  parts_count : Option Nat := none
  file_path : Option String := none
deriving DecidableEq

/-- Ruby `String#downcase` restricted to ASCII (the only characters the
extensions at hand contain): map `A`-`Z` to `a`-`z`. -/
def char_downcase (c : Char) : Char :=
  if 'A' ≤ c ∧ c ≤ 'Z' then Char.ofNat (c.toNat + 32) else c

/-- Ruby `file_extension.downcase` (handler.rb line 500). -/
def downcase (s : String) : String := ⟨s.data.map char_downcase⟩

/-- `get_content_type` (handler.rb lines 499-512): `case file_extension.downcase`
over the five known extensions with `audio/mpeg` as the default. -/
def get_content_type (file_extension : String) : String :=
  let e := downcase file_extension
  if e = ".mp4" ∨ e = ".m4a" then "audio/mp4"
  else if e = ".mp3" then "audio/mpeg"
  else if e = ".webm" then "audio/webm"
  else if e = ".ogg" then "audio/ogg"
  else "audio/mpeg"

/-- The content-type mapping as the specification states it (spec §6),
keyed on the literal extension string with no case normalization; used to
compare the spec's wording with `get_content_type`. -/
def content_type_spec (file_extension : String) : String :=
  if file_extension = ".mp4" ∨ file_extension = ".m4a" then "audio/mp4"
  else if file_extension = ".mp3" then "audio/mpeg"
  else if file_extension = ".webm" then "audio/webm"
  else if file_extension = ".ogg" then "audio/ogg"
  else "audio/mpeg"

/-- Ruby `etag_value.start_with?('"')` (handler.rb line 389): whether the
first character of the string is a double quote. -/
def starts_with_quote (s : String) : Bool :=
  match s.data with
  | [] => false
  | c :: _ => c = '"'

/-- Ruby `String#strip` (used on stderr text, handler.rb lines 267 and
468): drop whitespace from both ends. -/
def strip (s : String) : String :=
  ⟨((s.data.dropWhile Char.isWhitespace).reverse.dropWhile Char.isWhitespace).reverse⟩

/-- The ETag normalization of handler.rb line 389:
`etag_value = "\"#{etag_value}\"" unless etag_value.start_with?('"')`. -/
def normalize_etag (e : String) : String :=
  if starts_with_quote e then e else "\"" ++ e ++ "\""

/-- `chunk_size = 5 * 1024 * 1024` (handler.rb line 363). -/
def chunk_size : Nat := 5 * 1024 * 1024

/-- The successive byte counts `stdout.read(chunk_size)` returns for a
stream of `n` total bytes: full `chunk_size` reads, then the remainder,
then EOF (`nil`, the end of the list). -/
def readChunks (n : Nat) : List Nat :=
  if _h : n = 0 then [] else min chunk_size n :: readChunks (n - chunk_size)
termination_by n
decreasing_by
  simp only [chunk_size]
  omega

/-- Outcome of the read/upload loop: it either runs to EOF / an empty chunk
(`done`), or an upload raises (`raised`), carrying the exception message and
the parts appended so far. -/
inductive LoopOut where
  | done (parts : List Part)
  | raised (msg : String) (parts : List Part)
deriving DecidableEq

/-- The session part list carried by a loop outcome. -/
def LoopOut.toParts : LoopOut → List Part
  | .done ps => ps
  | .raised _ ps => ps

/-- The read/upload loop of handler.rb lines 369-398: for each chunk read
from stdout (`c` is its byte count; the list ends at EOF), break on an
empty chunk, otherwise call `upload_part`, normalize the returned etag, and
append `{etag:, part_number:}` to `parts`, incrementing `part_number`.
`etagOf pn` is the store's response to uploading part `pn`: the etag it
returns, or the message of the exception it raises. -/
def read_upload_loop (etagOf : Nat → Except String String) :
    List Nat → Nat → List Part → List Event × LoopOut
  | [], _, acc => ([], LoopOut.done acc)
  | c :: rest, pn, acc =>
    if c = 0 then ([], LoopOut.done acc)
    else
      match etagOf pn with
      | Except.error m => ([], LoopOut.raised m acc)
      | Except.ok e =>
        let out := read_upload_loop etagOf rest (pn + 1)
          (acc ++ [⟨normalize_etag e, pn⟩])
        (Event.upload_part pn c :: out.1, out.2)

/-- The external world of one streaming-mode item (`download_video_to_s3`):
whether `find_yt_dlp_executable` finds the binary, whether the filename
probe exits successfully, the extension of the probed filename
(`File.extname(filename)`, line 322), the store's response to each
`upload_part`, the byte counts read from the subprocess's stdout, the
subprocess exit status, what the late `stderr.read` of line 463 returns,
and whether `abort_multipart_upload` succeeds (when it does not, the
message of the exception it raises). -/
structure StreamEnv where
  yt_dlp_found : Bool
  probe_exit_success : Bool
  file_extension : String
  etagOf : Nat → Except String String
  chunks : List Nat
  exit_success : Bool
  stderr_tail : String
  abort_ok : Bool
  abort_fail_msg : String

/-- Handler.rb lines 400-496, the code after the read/upload loop, as a
function of the loop's upload events `evs` and its outcome:
  - if the loop raised: attempt an abort (its own failure only logged,
    lines 474-483) and re-raise; the outer rescue (line 489) turns the
    original exception into `success=false, "Exception: ..."`;
  - if no part was uploaded: abort and return the "No data received from
    yt-dlp" failure (lines 415-428); if that abort itself raises, the
    rescue of line 472 aborts again (failure logged) and re-raises;
  - otherwise the code calls `complete_multipart_upload` unconditionally
    (line 434) and only afterwards tests the exit status (line 445):
    success yields the successful result, a non-zero exit aborts the
    already-completed upload and returns `"Stream upload failed: ..."`
    built from the late `stderr.read` of line 463. -/
def finish_upload (video_id s3_key content_type : String) (env : StreamEnv)
    (evs : List Event) : LoopOut → BatchResult × List Event
  | LoopOut.raised m _ =>
    (⟨video_id, false, "Exception: " ++ m, none, none, none⟩,
      Event.spawn_stream :: Event.create_multipart s3_key content_type ::
        (evs ++ [Event.abort_multipart]))
  | LoopOut.done ps =>
    if ps.isEmpty then
      if env.abort_ok then
        (⟨video_id, false, "No data received from yt-dlp", none, none, none⟩,
          Event.spawn_stream :: Event.create_multipart s3_key content_type ::
            (evs ++ [Event.abort_multipart]))
      else
        (⟨video_id, false, "Exception: " ++ env.abort_fail_msg, none, none, none⟩,
          Event.spawn_stream :: Event.create_multipart s3_key content_type ::
            (evs ++ [Event.abort_multipart, Event.abort_multipart]))
    else if env.exit_success then
      (⟨video_id, true, "Direct S3 upload successful", some s3_key, some ps.length, none⟩,
        Event.spawn_stream :: Event.create_multipart s3_key content_type ::
          (evs ++ [Event.complete_multipart ps]))
    else if env.abort_ok then
      (⟨video_id, false, "Stream upload failed: " ++ strip env.stderr_tail,
          none, none, none⟩,
        Event.spawn_stream :: Event.create_multipart s3_key content_type ::
          (evs ++ [Event.complete_multipart ps, Event.abort_multipart]))
    else
      (⟨video_id, false, "Exception: " ++ env.abort_fail_msg, none, none, none⟩,
        Event.spawn_stream :: Event.create_multipart s3_key content_type ::
          (evs ++ [Event.complete_multipart ps, Event.abort_multipart,
            Event.abort_multipart]))

/-- Handler.rb lines 339-496, from `Open3.popen3` to the end of the outer
`rescue`: spawn the streaming subprocess, create the multipart upload
(line 352), run the read/upload loop, and finish per `finish_upload`. -/
def stream_and_upload (video_id s3_key content_type : String) (env : StreamEnv) :
    BatchResult × List Event :=
  finish_upload video_id s3_key content_type env
    (read_upload_loop env.etagOf env.chunks 1 []).1
    (read_upload_loop env.etagOf env.chunks 1 []).2

/-- `download_video_to_s3` (handler.rb lines 281-497): fail early when
yt-dlp is missing (lines 288-294) or the filename probe fails (lines
313-319); otherwise derive the destination key from the item id and the
probed extension (line 323) and run the streaming upload. -/
def download_video_to_s3 (video_id : String) (env : StreamEnv) :
    BatchResult × List Event :=
  if env.yt_dlp_found then
    if env.probe_exit_success then
      match stream_and_upload video_id (video_id ++ env.file_extension)
          (get_content_type env.file_extension) env with
      | (r, evs) => (r, Event.spawn_probe :: evs)
    else
      (⟨video_id, false, "Failed to get file info", none, none, none⟩,
        [Event.spawn_probe])
  else
    (⟨video_id, false, "yt-dlp not found. Please install with: pip install yt-dlp",
        none, none, none⟩, [])

/-- The external world of one local-mode item (`download_video`): whether
yt-dlp is found, whether `Open3.capture3` raises (the rescue of line 271),
the exit status, the stderr text, the file `find_downloaded_file` locates,
and whether `UPLOAD_TO_S3` is set. -/
structure LocalEnv where
  yt_dlp_found : Bool
  run_fault : Option String
  exit_success : Bool
  stderr_out : String
  found_file : Option String
  upload_to_s3_enabled : Bool

/-- `download_video` (handler.rb lines 205-279), the local-buffer path:
run yt-dlp with an output template, locate the produced file, optionally
`put_object` it (key `"#{video_id}/#{basename}"`, line 536; `found_file`
stands for that basename), and convert every failure into a
`success=false` result. -/
def download_video (video_id : String) (env : LocalEnv) : BatchResult × List Event :=
  if env.yt_dlp_found then
    match env.run_fault with
    | some m =>
      (⟨video_id, false, "Exception: " ++ m, none, none, none⟩,
        [Event.spawn_download])
    | none =>
      if env.exit_success then
        match env.found_file with
        | some f =>
          (⟨video_id, true, "Download successful", none, none, some f⟩,
            if env.upload_to_s3_enabled then
              [Event.spawn_download, Event.put_object (video_id ++ "/" ++ f)]
            else [Event.spawn_download])
        | none =>
          (⟨video_id, false, "Download completed but file not found", none, none, none⟩,
            [Event.spawn_download])
      else
        (⟨video_id, false, "Download failed: " ++ strip env.stderr_out,
            none, none, none⟩, [Event.spawn_download])
  else
    (⟨video_id, false, "yt-dlp not found. Please install with: pip install yt-dlp",
        none, none, none⟩, [])

/-- A catalog record: `{video_id, title, transcribed}`, the transcribed
flag stored as a number (`0` encodes false, handler.rb line 182). -/
structure CatalogItem where
  video_id : String
  title : String
  transcribed : Nat
deriving DecidableEq

/-- The server-side filter of one `scan` page
(`filter_expression: '#transcribed = :false_val'` with `:false_val => 0`,
handler.rb lines 177-183). -/
def scan_filter (page : List CatalogItem) : List CatalogItem :=
  page.filter (fun i => i.transcribed == 0)

/-- The pagination loop of handler.rb lines 188-194: scan, concatenate
`result.items`, continue while `last_evaluated_key` is present (the next
element of `pages`). -/
def scan_loop : List (List CatalogItem) → List CatalogItem → List CatalogItem
  | [], acc => acc
  | page :: rest, acc => scan_loop rest (acc ++ scan_filter page)

/-- The catalog as one run observes it: the raw scan pages, whether the
scan raises `Aws::DynamoDB::Errors::ServiceError` (rescued at line 199),
and whether it raises any other exception (not rescued there; carries the
exception message). -/
structure CatalogEnv where
  pages : List (List CatalogItem)
  service_error : Bool
  hard_fault : Option String

/-- `fetch_untranscribed_videos` (handler.rb lines 173-203): page through
the filtered scan until no `last_evaluated_key` remains; a
`ServiceError` is rescued into an empty list (lines 199-202), any other
exception propagates to the caller. -/
def fetch_untranscribed_videos (cat : CatalogEnv) : Except String (List CatalogItem) :=
  match cat.hard_fault with
  | some m => Except.error m
  | none =>
    if cat.service_error then Except.ok []
    else Except.ok (scan_loop cat.pages [])

/-- The backlog selector as the claim states it (spec §4.1,
`fetch_pending(limit)`): identical paging and error handling, but the
collection stops once `limit` items are gathered.  Stated from the spec's
words, to be compared with `fetch_untranscribed_videos`. -/
def fetch_pending_spec (limit : Nat) (cat : CatalogEnv) :
    Except String (List CatalogItem) :=
  match cat.hard_fault with
  | some m => Except.error m
  | none =>
    if cat.service_error then Except.ok []
    else Except.ok ((scan_loop cat.pages []).take limit)

/-- The JSON body shapes `lambda_handler` can generate: the empty-backlog
body of lines 73-76, the batch body of lines 106-111, and the error body
of lines 120-123. -/
inductive ResponseBody where
  | no_videos (message : String) (processed_count : Nat)
  | completed (message : String) (total_videos : Nat)
      (successful_downloads : Nat) (results : List BatchResult)
  | internal_error (error : String) (message : String)
deriving DecidableEq

/-- `{statusCode:, body:}` as returned by `lambda_handler`. -/
structure LambdaResponse where
  statusCode : Nat
  body : ResponseBody
deriving DecidableEq

/-- Run-wide configuration and per-item environments: the
`DIRECT_S3_UPLOAD` mode switch (line 88) and the world each item id
encounters. -/
structure HandlerEnv where
  direct_s3_upload : Bool
  stream_env : String → StreamEnv
  local_env : String → LocalEnv

/-- The per-item dispatch of handler.rb lines 87-92. -/
def process_item (henv : HandlerEnv) (video_id : String) : BatchResult × List Event :=
  if henv.direct_s3_upload then download_video_to_s3 video_id (henv.stream_env video_id)
  else download_video video_id (henv.local_env video_id)

/-- `lambda_handler` (handler.rb lines 62-126): fetch the backlog; an empty
backlog returns the zero-count body immediately (lines 69-78); otherwise
every item is processed in sequence, successes are counted (line 100), and
the batch body is returned with status 200.  Any exception escaping the
`begin` block — here, a non-`ServiceError` catalog fault — is rescued at
line 114 into status 500 with `{error: "Internal server error", message}`. -/
def lambda_handler (cat : CatalogEnv) (henv : HandlerEnv) :
    LambdaResponse × List Event :=
  match fetch_untranscribed_videos cat with
  | Except.error m =>
    (⟨500, ResponseBody.internal_error "Internal server error" m⟩, [])
  | Except.ok vids =>
    if vids.isEmpty then
      (⟨200, ResponseBody.no_videos "No untranscribed videos to download" 0⟩, [])
    else
      let outs := vids.map (fun v => process_item henv v.video_id)
      let results := outs.map Prod.fst
      (⟨200, ResponseBody.completed "YouTube download completed" vids.length
          (results.countP (fun r => r.success)) results⟩,
        (outs.map Prod.snd).flatten)

/-! Concrete environments used to evaluate the embedded code at specific
inputs (failing inputs, counterexamples, witnesses). -/

/-- A run whose subprocess streams one full chunk and then exits non-zero,
while the store behaves normally. -/
def envC1 : StreamEnv :=
  { yt_dlp_found := true, probe_exit_success := true, file_extension := ".m4a",
    etagOf := fun _ => Except.ok "etagA", chunks := [chunk_size],
    exit_success := false, stderr_tail := "", abort_ok := true,
    abort_fail_msg := "abort failed" }

/-- A successful two-chunk run (10 and 20 bytes read). -/
def envC2 : StreamEnv :=
  { yt_dlp_found := true, probe_exit_success := true, file_extension := ".m4a",
    etagOf := fun _ => Except.ok "x", chunks := [10, 20],
    exit_success := true, stderr_tail := "", abort_ok := true,
    abort_fail_msg := "abort failed" }

/-- A run whose subprocess exits successfully but emits zero bytes. -/
def envC3 : StreamEnv :=
  { yt_dlp_found := true, probe_exit_success := true, file_extension := ".m4a",
    etagOf := fun _ => Except.ok "x", chunks := [],
    exit_success := true, stderr_tail := "", abort_ok := true,
    abort_fail_msg := "abort failed" }

/-- A successful run over a 12 MiB stdout stream read in 5 MiB chunks. -/
def envC4 : StreamEnv :=
  { yt_dlp_found := true, probe_exit_success := true, file_extension := ".m4a",
    etagOf := fun _ => Except.ok "etag4", chunks := readChunks (12 * 1024 * 1024),
    exit_success := true, stderr_tail := "", abort_ok := true,
    abort_fail_msg := "abort failed" }

/-- A run whose first `upload_part` raises. -/
def envC5 : StreamEnv :=
  { yt_dlp_found := true, probe_exit_success := true, file_extension := ".m4a",
    etagOf := fun _ => Except.error "boom", chunks := [1],
    exit_success := true, stderr_tail := "", abort_ok := true,
    abort_fail_msg := "abort failed" }

/-- Two catalog items pending transcription. -/
def itemA : CatalogItem := ⟨"a", "titleA", 0⟩

def itemB : CatalogItem := ⟨"b", "titleB", 0⟩

/-- A healthy catalog holding two pending items in one page. -/
def catC6 : CatalogEnv := ⟨[[itemA, itemB]], false, none⟩

/-- A healthy catalog with no items at all. -/
def catEmpty : CatalogEnv := ⟨[], false, none⟩

/-- A local-mode environment where everything succeeds. -/
def localEnvA : LocalEnv := ⟨true, none, true, "", some "a.m4a", false⟩

/-- A streaming-mode handler configuration. -/
def henvA : HandlerEnv := ⟨true, fun _ => envC2, fun _ => localEnvA⟩

/-! Helper lemmas shared by the claim theorems. -/

lemma starts_with_quote_wrap (e : String) :
    starts_with_quote ("\"" ++ e ++ "\"") = true := by
  cases e with
  | mk d => rfl

lemma starts_with_quote_normalize (e : String) :
    starts_with_quote (normalize_etag e) = true := by
  unfold normalize_etag
  split
  · assumption
  · exact starts_with_quote_wrap e

lemma read_upload_loop_events (etagOf : Nat → Except String String) :
    ∀ (chunks : List Nat) (pn : Nat) (acc : List Part) (ev : Event),
      ev ∈ (read_upload_loop etagOf chunks pn acc).1 →
      ∃ n s, ev = Event.upload_part n s := by
  intro chunks
  induction chunks with
  | nil => intro pn acc ev h; simp [read_upload_loop] at h
  | cons c rest ih =>
    intro pn acc ev h
    by_cases hc : c = 0
    · simp [read_upload_loop, hc] at h
    · rw [read_upload_loop] at h
      simp only [if_neg hc] at h
      cases hm : etagOf pn with
      | error m => rw [hm] at h; simp at h
      | ok e =>
        rw [hm] at h
        simp only [List.mem_cons] at h
        rcases h with h | h
        · exact ⟨pn, c, h⟩
        · exact ih (pn + 1) (acc ++ [⟨normalize_etag e, pn⟩]) ev h

lemma read_upload_loop_map (etagOf : Nat → Except String String) :
    ∀ (chunks : List Nat) (pn : Nat) (acc : List Part), ∃ k,
      (LoopOut.toParts (read_upload_loop etagOf chunks pn acc).2).map Part.part_number
        = acc.map Part.part_number ++ List.range' pn k := by
  intro chunks
  induction chunks with
  | nil =>
    intro pn acc
    exact ⟨0, by simp [read_upload_loop, LoopOut.toParts]⟩
  | cons c rest ih =>
    intro pn acc
    by_cases hc : c = 0
    · exact ⟨0, by simp [read_upload_loop, hc, LoopOut.toParts]⟩
    · cases hm : etagOf pn with
      | error m =>
        refine ⟨0, ?_⟩
        rw [read_upload_loop]
        simp [if_neg hc, hm, LoopOut.toParts]
      | ok e =>
        obtain ⟨k, hk⟩ := ih (pn + 1) (acc ++ [⟨normalize_etag e, pn⟩])
        refine ⟨k + 1, ?_⟩
        rw [read_upload_loop]
        simp only [if_neg hc, hm]
        rw [hk]
        simp [List.range'_succ]

lemma read_upload_loop_quoted (etagOf : Nat → Except String String) :
    ∀ (chunks : List Nat) (pn : Nat) (acc : List Part),
      (∀ p ∈ acc, starts_with_quote p.etag = true) →
      ∀ p ∈ LoopOut.toParts (read_upload_loop etagOf chunks pn acc).2,
        starts_with_quote p.etag = true := by
  intro chunks
  induction chunks with
  | nil => intro pn acc hacc p hp; simp [read_upload_loop, LoopOut.toParts] at hp; exact hacc p hp
  | cons c rest ih =>
    intro pn acc hacc p hp
    by_cases hc : c = 0
    · simp [read_upload_loop, hc, LoopOut.toParts] at hp
      exact hacc p hp
    · rw [read_upload_loop] at hp
      simp only [if_neg hc] at hp
      cases hm : etagOf pn with
      | error m =>
        rw [hm] at hp
        simp [LoopOut.toParts] at hp
        exact hacc p hp
      | ok e =>
        rw [hm] at hp
        refine ih (pn + 1) (acc ++ [⟨normalize_etag e, pn⟩]) ?_ p hp
        intro q hq
        rcases List.mem_append.mp hq with h | h
        · exact hacc q h
        · simp at h
          subst h
          exact starts_with_quote_normalize e

lemma scan_loop_eq : ∀ (pages : List (List CatalogItem)) (acc : List CatalogItem),
    scan_loop pages acc = acc ++ (pages.map scan_filter).flatten := by
  intro pages
  induction pages with
  | nil => intro acc; simp [scan_loop]
  | cons page rest ih =>
    intro acc
    rw [scan_loop, ih]
    simp

lemma complete_in_stream_trace (vid key ct : String) (env : StreamEnv) (ps : List Part)
    (h : Event.complete_multipart ps ∈ (stream_and_upload vid key ct env).2) :
    ps = LoopOut.toParts (read_upload_loop env.etagOf env.chunks 1 []).2 := by
  have hevs : Event.complete_multipart ps ∉ (read_upload_loop env.etagOf env.chunks 1 []).1 := by
    intro hm
    obtain ⟨n, s, hn⟩ := read_upload_loop_events env.etagOf env.chunks 1 [] _ hm
    simp at hn
  unfold stream_and_upload at h
  cases hout : (read_upload_loop env.etagOf env.chunks 1 []).2 with
  | raised m qs =>
    rw [hout] at h
    simp only [finish_upload] at h
    simp only [LoopOut.toParts]
    simp only [List.mem_cons, List.mem_append, List.mem_singleton] at h
    rcases h with h | h
    · exact absurd h (by simp)
    rcases h with h | h
    · exact absurd h (by simp)
    rcases h with h | h
    · exact absurd h hevs
    simp_all
  | done qs =>
    rw [hout] at h
    simp only [finish_upload] at h
    simp only [LoopOut.toParts]
    split_ifs at h <;>
      · simp only [List.mem_cons, List.mem_append, List.mem_singleton] at h
        rcases h with h | h
        · exact absurd h (by simp)
        rcases h with h | h
        · exact absurd h (by simp)
        rcases h with h | h
        · exact absurd h hevs
        simp_all

lemma complete_in_trace (vid : String) (env : StreamEnv) (ps : List Part)
    (h : Event.complete_multipart ps ∈ (download_video_to_s3 vid env).2) :
    ps = LoopOut.toParts (read_upload_loop env.etagOf env.chunks 1 []).2 := by
  unfold download_video_to_s3 at h
  by_cases hy : env.yt_dlp_found
  · rw [if_pos hy] at h
    by_cases hp : env.probe_exit_success
    · rw [if_pos hp] at h
      cases hs : stream_and_upload vid (vid ++ env.file_extension)
          (get_content_type env.file_extension) env with
      | mk r evs =>
        rw [hs] at h
        simp only [List.mem_cons] at h
        rcases h with h | h
        · exact absurd h (by simp)
        · refine complete_in_stream_trace vid (vid ++ env.file_extension)
            (get_content_type env.file_extension) env ps ?_
          rw [hs]
          exact h
    · rw [if_neg hp] at h
      simp at h
  · rw [if_neg hy] at h
    simp at h

lemma download_unfold (vid : String) (env : StreamEnv)
    (h1 : env.yt_dlp_found = true) (h2 : env.probe_exit_success = true) :
    download_video_to_s3 vid env =
      ((stream_and_upload vid (vid ++ env.file_extension)
          (get_content_type env.file_extension) env).1,
        Event.spawn_probe ::
          (stream_and_upload vid (vid ++ env.file_extension)
            (get_content_type env.file_extension) env).2) := by
  unfold download_video_to_s3
  rw [h1, h2]
  simp only [if_pos rfl]
  cases stream_and_upload vid (vid ++ env.file_extension)
      (get_content_type env.file_extension) env with
  | mk r evs => rfl

lemma stream_raised_eq (vid key ct : String) (env : StreamEnv) (m : String)
    (qs : List Part)
    (h : (read_upload_loop env.etagOf env.chunks 1 []).2 = LoopOut.raised m qs) :
    stream_and_upload vid key ct env =
      (⟨vid, false, "Exception: " ++ m, none, none, none⟩,
        Event.spawn_stream :: Event.create_multipart key ct ::
          ((read_upload_loop env.etagOf env.chunks 1 []).1 ++
            [Event.abort_multipart])) := by
  unfold stream_and_upload
  rw [h]
  simp only [finish_upload]

/-! The claim theorems. -/

/-- Claim C1, behavior of the code at the failing input: with one uploaded
part and a non-zero subprocess exit status, `download_video_to_s3` still
calls the storage complete operation with the part list (the object is
committed) before it tests the exit status, then calls abort on the
already-completed upload; the claim says complete is called only when the
exit status is success, and that a non-zero exit always ends in abort with
no completion. -/
theorem C1_complete_called_despite_nonzero_exit :
    envC1.exit_success = false ∧
    (download_video_to_s3 "vidA" envC1).1.success = false ∧
    Event.complete_multipart [⟨"\"etagA\"", 1⟩] ∈
      (download_video_to_s3 "vidA" envC1).2 ∧
    Event.abort_multipart ∈ (download_video_to_s3 "vidA" envC1).2 := by
  decide

/-- Claim C2: every part list handed to the storage complete operation is
exactly the session's accumulated part list, and its part numbers are
contiguous from 1 in read order (no gaps, no duplicates, no reordering). -/
theorem C2_complete_receives_contiguous_parts (vid : String) (env : StreamEnv)
    (ps : List Part)
    (h : Event.complete_multipart ps ∈ (download_video_to_s3 vid env).2) :
    ps = LoopOut.toParts (read_upload_loop env.etagOf env.chunks 1 []).2 ∧
    ps.map Part.part_number = List.range' 1 ps.length := by
  have h1 := complete_in_trace vid env ps h
  refine ⟨h1, ?_⟩
  obtain ⟨k, hk⟩ := read_upload_loop_map env.etagOf env.chunks 1 []
  have hk' : (LoopOut.toParts (read_upload_loop env.etagOf env.chunks 1 []).2).map
      Part.part_number = List.range' 1 k := by simpa using hk
  have hlen : (LoopOut.toParts (read_upload_loop env.etagOf env.chunks 1 []).2).length
      = k := by
    have := congrArg List.length hk'
    simpa using this
  rw [h1, hk', hlen]

/-- Witness for C2 at a concrete two-chunk run. -/
theorem C2_complete_receives_contiguous_parts_witness :
    ([⟨"\"x\"", 1⟩, ⟨"\"x\"", 2⟩] : List Part).map Part.part_number =
      List.range' 1 ([⟨"\"x\"", 1⟩, ⟨"\"x\"", 2⟩] : List Part).length :=
  (C2_complete_receives_contiguous_parts "vidB" envC2
    [⟨"\"x\"", 1⟩, ⟨"\"x\"", 2⟩] (by decide)).2

/-- Claim C3: when the subprocess streams zero bytes (stdout reaches EOF
with no chunk read), the item fails with the "No data received from
yt-dlp" message, abort is called exactly once before the result is
produced, and complete is never called. -/
theorem C3_empty_stream_aborts_once (vid : String) (env : StreamEnv)
    (h1 : env.yt_dlp_found = true) (h2 : env.probe_exit_success = true)
    (h3 : env.chunks = []) (h4 : env.abort_ok = true) :
    (download_video_to_s3 vid env).1.success = false ∧
    (download_video_to_s3 vid env).1.message = "No data received from yt-dlp" ∧
    (download_video_to_s3 vid env).2.count Event.abort_multipart = 1 ∧
    ∀ ps, Event.complete_multipart ps ∉ (download_video_to_s3 vid env).2 := by
  have e : download_video_to_s3 vid env =
      (⟨vid, false, "No data received from yt-dlp", none, none, none⟩,
        [Event.spawn_probe, Event.spawn_stream,
          Event.create_multipart (vid ++ env.file_extension)
            (get_content_type env.file_extension),
          Event.abort_multipart]) := by
    rw [download_unfold vid env h1 h2]
    unfold stream_and_upload
    rw [h3]
    simp only [read_upload_loop]
    simp only [finish_upload]
    rw [h4]
    simp
  rw [e]
  refine ⟨rfl, rfl, ?_, ?_⟩
  · simp [List.count_cons]
  · intro ps
    simp

/-- Witness for C3 at a concrete zero-byte run. -/
theorem C3_empty_stream_aborts_once_witness :
    (download_video_to_s3 "vidC" envC3).1.success = false ∧
    (download_video_to_s3 "vidC" envC3).1.message = "No data received from yt-dlp" ∧
    (download_video_to_s3 "vidC" envC3).2.count Event.abort_multipart = 1 :=
  ⟨(C3_empty_stream_aborts_once "vidC" envC3 rfl rfl rfl rfl).1,
    (C3_empty_stream_aborts_once "vidC" envC3 rfl rfl rfl rfl).2.1,
    (C3_empty_stream_aborts_once "vidC" envC3 rfl rfl rfl rfl).2.2.1⟩

/-- Claim C4: a 12 MiB stdout stream read in fixed 5 MiB chunks yields
exactly three parts of 5, 5 and 2 MiB with part numbers 1, 2, 3 in that
order, and the complete call receives exactly those three descriptors. -/
theorem C4_twelve_mib_three_parts :
    readChunks (12 * 1024 * 1024) =
      [5 * 1024 * 1024, 5 * 1024 * 1024, 2 * 1024 * 1024] ∧
    download_video_to_s3 "vidD" envC4 =
      (⟨"vidD", true, "Direct S3 upload successful", some "vidD.m4a", some 3, none⟩,
        [Event.spawn_probe, Event.spawn_stream,
          Event.create_multipart "vidD.m4a" "audio/mp4",
          Event.upload_part 1 (5 * 1024 * 1024),
          Event.upload_part 2 (5 * 1024 * 1024),
          Event.upload_part 3 (2 * 1024 * 1024),
          Event.complete_multipart
            [⟨"\"etag4\"", 1⟩, ⟨"\"etag4\"", 2⟩, ⟨"\"etag4\"", 3⟩]]) := by
  have h : readChunks (12 * 1024 * 1024) =
      [5 * 1024 * 1024, 5 * 1024 * 1024, 2 * 1024 * 1024] := by
    simp [readChunks, chunk_size]
  refine ⟨h, ?_⟩
  simp only [envC4]
  rw [h]
  decide

/-- Claim C5: when an upload in the read/upload loop raises, abort is
attempted and the item result keeps the original exception message
regardless of whether the abort itself succeeds; and no per-item failure
ever escapes the batch loop — the handler answers 200 whenever the catalog
itself does not raise a non-service exception. -/
theorem C5_exception_preserves_original_failure (vid : String) (env : StreamEnv)
    (m : String) (qs : List Part)
    (h1 : env.yt_dlp_found = true) (h2 : env.probe_exit_success = true)
    (h3 : (read_upload_loop env.etagOf env.chunks 1 []).2 = LoopOut.raised m qs) :
    (download_video_to_s3 vid env).1.success = false ∧
    (download_video_to_s3 vid env).1.message = "Exception: " ++ m ∧
    Event.abort_multipart ∈ (download_video_to_s3 vid env).2 ∧
    (∀ b : Bool,
      (download_video_to_s3 vid { env with abort_ok := b }).1 =
        (download_video_to_s3 vid env).1) ∧
    (∀ (cat : CatalogEnv) (henv : HandlerEnv), cat.hard_fault = none →
      (lambda_handler cat henv).1.statusCode = 200) := by
  rw [download_unfold vid env h1 h2,
    stream_raised_eq vid (vid ++ env.file_extension)
      (get_content_type env.file_extension) env m qs h3]
  refine ⟨rfl, rfl, ?_, ?_, ?_⟩
  · simp
  · intro b
    rw [download_unfold vid { env with abort_ok := b } h1 h2,
      stream_raised_eq vid (vid ++ env.file_extension)
        (get_content_type env.file_extension) { env with abort_ok := b } m qs h3]
  · intro cat henv hcf
    unfold lambda_handler fetch_untranscribed_videos
    rw [hcf]
    by_cases hse : cat.service_error
    · rw [if_pos hse]
      simp
    · rw [if_neg hse]
      by_cases hemp : (scan_loop cat.pages []).isEmpty
      · simp [hemp]
      · simp [hemp]

/-- Witness for C5 at a concrete raising run. -/
theorem C5_exception_preserves_original_failure_witness :
    (download_video_to_s3 "vidE" envC5).1.success = false ∧
    (download_video_to_s3 "vidE" envC5).1.message = "Exception: " ++ "boom" ∧
    Event.abort_multipart ∈ (download_video_to_s3 "vidE" envC5).2 :=
  ⟨(C5_exception_preserves_original_failure "vidE" envC5 "boom" [] rfl rfl rfl).1,
    (C5_exception_preserves_original_failure "vidE" envC5 "boom" [] rfl rfl rfl).2.1,
    (C5_exception_preserves_original_failure "vidE" envC5 "boom" [] rfl rfl rfl).2.2.1⟩

/-- Claim C6, counterexample: the backlog selector has no limit parameter —
against a catalog holding two pending items it does not behave as the
spec's `fetch_pending` with `limit = 1` would (it returns both items, not
at most one). -/
theorem C6_fetch_ignores_limit_counterexample :
    fetch_untranscribed_videos catC6 ≠ fetch_pending_spec 1 catC6 := by
  intro h
  have h1 : fetch_untranscribed_videos catC6 = Except.ok [itemA, itemB] := rfl
  have h2 : fetch_pending_spec 1 catC6 = Except.ok [itemA] := rfl
  rw [h1, h2] at h
  injection h with h
  exact absurd h (by decide)

/-- Claim C6 as amended: the selector pages through the catalog's
`transcribed == false` view until the catalog is exhausted and returns all
pending items (no limit is applied); on a catalog service error it returns
an empty list instead of raising. -/
theorem C6_fetch_returns_all_pending (cat : CatalogEnv) :
    (cat.hard_fault = none → cat.service_error = true →
      fetch_untranscribed_videos cat = Except.ok []) ∧
    (cat.hard_fault = none → cat.service_error = false →
      fetch_untranscribed_videos cat = Except.ok ((cat.pages.map scan_filter).flatten)) ∧
    (∀ vids, fetch_untranscribed_videos cat = Except.ok vids →
      ∀ i ∈ vids, i.transcribed = 0) := by
  refine ⟨?_, ?_, ?_⟩
  · intro h1 h2
    unfold fetch_untranscribed_videos
    rw [h1, h2]
    simp
  · intro h1 h2
    unfold fetch_untranscribed_videos
    rw [h1, h2]
    simp [scan_loop_eq]
  · intro vids hv i hi
    unfold fetch_untranscribed_videos at hv
    cases hcf : cat.hard_fault with
    | some m =>
      rw [hcf] at hv
      simp at hv
    | none =>
      rw [hcf] at hv
      by_cases hse : cat.service_error
      · rw [if_pos hse] at hv
        injection hv with hv
        subst hv
        simp at hi
      · rw [if_neg hse] at hv
        injection hv with hv
        subst hv
        rw [scan_loop_eq] at hi
        simp only [List.nil_append] at hi
        rw [List.mem_flatten] at hi
        obtain ⟨l, hl, hil⟩ := hi
        rw [List.mem_map] at hl
        obtain ⟨page, hpage, rfl⟩ := hl
        unfold scan_filter at hil
        rw [List.mem_filter] at hil
        simpa using hil.2

/-- Witness for C6 at a concrete two-item catalog. -/
theorem C6_fetch_returns_all_pending_witness :
    fetch_untranscribed_videos catC6 =
      Except.ok ((catC6.pages.map scan_filter).flatten) ∧
    itemA.transcribed = 0 :=
  ⟨(C6_fetch_returns_all_pending catC6).2.1 rfl rfl,
    (C6_fetch_returns_all_pending catC6).2.2 [itemA, itemB] rfl itemA (by decide)⟩

/-- Claim C7: when the backlog selector returns an empty list, the handler
answers status 200 with the zero-count body and performs no subprocess
launch and no storage call at all (the trace is empty). -/
theorem C7_empty_backlog_no_calls (cat : CatalogEnv) (henv : HandlerEnv)
    (h : fetch_untranscribed_videos cat = Except.ok []) :
    lambda_handler cat henv =
      (⟨200, ResponseBody.no_videos "No untranscribed videos to download" 0⟩, []) := by
  unfold lambda_handler
  rw [h]
  rfl

/-- Witness for C7 at a concrete empty catalog. -/
theorem C7_empty_backlog_no_calls_witness :
    lambda_handler catEmpty henvA =
      (⟨200, ResponseBody.no_videos "No untranscribed videos to download" 0⟩, []) :=
  C7_empty_backlog_no_calls catEmpty henvA rfl

/-- Claim C8, counterexample: the mapping is keyed on the downcased
extension, so the literal reading "audio/mpeg for every extension other
than the five listed" fails at ".MP4", which maps to "audio/mp4" while the
spec's literal mapping sends it to the default. -/
theorem C8_content_type_counterexample :
    get_content_type ".MP4" ≠ content_type_spec ".MP4" := by decide

/-- Claim C8 as amended: the content-type mapping is case-insensitive —
extensions downcasing to .mp4 or .m4a map to audio/mp4, .mp3 to
audio/mpeg, .webm to audio/webm, .ogg to audio/ogg, and every extension
whose downcased form is none of the five maps to the default audio/mpeg. -/
theorem C8_content_type_case_insensitive (ext : String) :
    ((downcase ext = ".mp4" ∨ downcase ext = ".m4a") →
      get_content_type ext = "audio/mp4") ∧
    (downcase ext = ".mp3" → get_content_type ext = "audio/mpeg") ∧
    (downcase ext = ".webm" → get_content_type ext = "audio/webm") ∧
    (downcase ext = ".ogg" → get_content_type ext = "audio/ogg") ∧
    (downcase ext ∉ ([".mp4", ".m4a", ".mp3", ".webm", ".ogg"] : List String) →
      get_content_type ext = "audio/mpeg") := by
  refine ⟨?_, ?_, ?_, ?_, ?_⟩ <;> intro h
  · rcases h with h | h <;> simp [get_content_type, h]
  · simp [get_content_type, h]
  · simp [get_content_type, h]
  · simp [get_content_type, h]
  · simp only [List.mem_cons, List.not_mem_nil, or_false, not_or] at h
    obtain ⟨n1, n2, n3, n4, n5⟩ := h
    simp [get_content_type, n1, n2, n3, n4, n5]

/-- Witness for C8 exercising each case at concrete extensions. -/
theorem C8_content_type_case_insensitive_witness :
    get_content_type ".M4A" = "audio/mp4" ∧
    get_content_type ".MP3" = "audio/mpeg" ∧
    get_content_type ".WEBM" = "audio/webm" ∧
    get_content_type ".OGG" = "audio/ogg" ∧
    get_content_type ".flac" = "audio/mpeg" :=
  ⟨(C8_content_type_case_insensitive ".M4A").1 (Or.inr (by decide)),
    (C8_content_type_case_insensitive ".MP3").2.1 (by decide),
    (C8_content_type_case_insensitive ".WEBM").2.2.1 (by decide),
    (C8_content_type_case_insensitive ".OGG").2.2.2.1 (by decide),
    (C8_content_type_case_insensitive ".flac").2.2.2.2 (by decide)⟩

/-- Claim C9: the etag normalization leaves an already-quoted etag
unchanged, wraps any other etag in double quotes, always produces a string
beginning with a double quote, is idempotent, and every part the
read/upload loop appends to the session carries a quoted etag. -/
theorem C9_etag_normalization (e : String) (etagOf : Nat → Except String String)
    (chunks : List Nat) :
    (starts_with_quote e = true → normalize_etag e = e) ∧
    (starts_with_quote e = false → normalize_etag e = "\"" ++ e ++ "\"") ∧
    starts_with_quote (normalize_etag e) = true ∧
    normalize_etag (normalize_etag e) = normalize_etag e ∧
    (∀ p ∈ LoopOut.toParts (read_upload_loop etagOf chunks 1 []).2,
      starts_with_quote p.etag = true) := by
  refine ⟨?_, ?_, starts_with_quote_normalize e, ?_, ?_⟩
  · intro h
    simp [normalize_etag, h]
  · intro h
    simp [normalize_etag, h]
  · cases hq : starts_with_quote e with
    | true =>
      have he : normalize_etag e = e := by simp [normalize_etag, hq]
      simp [he]
    | false =>
      have he : normalize_etag e = "\"" ++ e ++ "\"" := by simp [normalize_etag, hq]
      rw [he]
      simp [normalize_etag, starts_with_quote_wrap]
  · exact read_upload_loop_quoted etagOf chunks 1 [] (by simp)

/-- Witness for C9 at concrete etags and a concrete one-chunk run. -/
theorem C9_etag_normalization_witness :
    normalize_etag "\"q\"" = "\"q\"" ∧
    normalize_etag "abc" = "\"" ++ "abc" ++ "\"" ∧
    starts_with_quote ((⟨"\"x\"", 1⟩ : Part).etag) = true :=
  ⟨(C9_etag_normalization "\"q\"" (fun _ => Except.ok "x") [10]).1 (by decide),
    (C9_etag_normalization "abc" (fun _ => Except.ok "x") [10]).2.1 (by decide),
    (C9_etag_normalization "abc" (fun _ => Except.ok "x") [10]).2.2.2.2
      ⟨"\"x\"", 1⟩ (by decide)⟩

/-- Claim C10, counterexample: on an empty backlog the handler returns
status 200 with the `no_videos` body, which is neither the claimed
200-with-batch-fields shape nor the 500 shape. -/
theorem C10_response_shape_counterexample :
    ¬ (((lambda_handler catEmpty henvA).1.statusCode = 200 ∧
        ∃ msg t s rs, (lambda_handler catEmpty henvA).1.body =
          ResponseBody.completed msg t s rs) ∨
      ((lambda_handler catEmpty henvA).1.statusCode = 500 ∧
        ∃ msg, (lambda_handler catEmpty henvA).1.body =
          ResponseBody.internal_error "Internal server error" msg)) := by
  have h : lambda_handler catEmpty henvA =
      (⟨200, ResponseBody.no_videos "No untranscribed videos to download" 0⟩, []) :=
    rfl
  rw [h]
  rintro (⟨-, msg, t, s, rs, hb⟩ | ⟨h5, -⟩)
  · simp at hb
  · simp at h5

/-- Claim C10 as amended: the handler never raises; it returns status 500
with the internal-error body exactly when a non-service catalog exception
escapes, and otherwise status 200 with either the zero-count body (empty
backlog) or the batch body whose total equals the number of per-item
results and whose success count tallies the successful results. -/
theorem C10_response_shape (cat : CatalogEnv) (henv : HandlerEnv) :
    (∃ m, cat.hard_fault = some m ∧
      (lambda_handler cat henv).1 =
        ⟨500, ResponseBody.internal_error "Internal server error" m⟩) ∨
    ((lambda_handler cat henv).1 =
      ⟨200, ResponseBody.no_videos "No untranscribed videos to download" 0⟩) ∨
    (∃ rs, (lambda_handler cat henv).1 =
      ⟨200, ResponseBody.completed "YouTube download completed" rs.length
        (rs.countP (fun r => r.success)) rs⟩ ∧ 0 < rs.length) := by
  cases hcf : cat.hard_fault with
  | some m =>
    left
    refine ⟨m, rfl, ?_⟩
    unfold lambda_handler fetch_untranscribed_videos
    rw [hcf]
  | none =>
    right
    have hok : ∀ l, fetch_untranscribed_videos cat = Except.ok l →
        (lambda_handler cat henv).1 =
          (if l.isEmpty then
            ⟨200, ResponseBody.no_videos "No untranscribed videos to download" 0⟩
          else
            ⟨200, ResponseBody.completed "YouTube download completed" l.length
              (((l.map (fun v => process_item henv v.video_id)).map
                  Prod.fst).countP (fun r => r.success))
              ((l.map (fun v => process_item henv v.video_id)).map Prod.fst)⟩) := by
      intro l hl
      unfold lambda_handler
      rw [hl]
      by_cases hemp : l.isEmpty
      · simp [hemp]
      · simp [hemp]
    obtain ⟨l, hl⟩ : ∃ l, fetch_untranscribed_videos cat = Except.ok l := by
      unfold fetch_untranscribed_videos
      rw [hcf]
      by_cases hse : cat.service_error
      · exact ⟨[], by rw [if_pos hse]⟩
      · exact ⟨scan_loop cat.pages [], by rw [if_neg hse]⟩
    have h := hok l hl
    by_cases hemp : l.isEmpty
    · left
      rw [h, if_pos hemp]
    · right
      refine ⟨(l.map (fun v => process_item henv v.video_id)).map Prod.fst, ?_, ?_⟩
      · rw [h, if_neg hemp]
        simp
      · simp only [List.length_map]
        cases l with
        | nil => simp at hemp
        | cons a l' => simp

end Transcribe
